import Mathlib

/-!
Verification of the MCP account-management server
(`python-agents/account-management-mcp/account_management_mcp.py`).

The embedding models Python JSON values as `JValue`, Python dictionaries as
association lists with last-write-wins lookup (matching the semantics of a
Python dict literal with duplicate keys and of `json.loads`), fallible Python
code as `Except PyErr`, and the per-session SSE queue as a `List` bounded by
`SESSION_QUEUE_MAX`.  Wall-clock timestamps (`datetime.now().isoformat()`)
and uuid draws (`uuid.uuid4().hex[:8].upper()`) are threaded explicitly
through an `Ambient` record.
-/

set_option autoImplicit false

namespace AccountMcp

/-- Python/JSON values as handled by the server (numbers restricted to the
integers: every numeric literal in the source data is a whole number and no
arithmetic is ever performed on them). -/
inductive JValue where
  | null
  | bool (b : Bool)
  | num (n : Int)
  | str (s : String)
  | arr (xs : List JValue)
  | obj (fields : List (String × JValue))

/-- Python type name of a value, used in AttributeError descriptions. -/
def jTypeName : JValue → String
  | .null => "NoneType"
  | .bool _ => "bool"
  | .num _ => "int"
  | .str _ => "str"
  | .arr _ => "list"
  | .obj _ => "dict"

/-- Python truthiness (`bool(v)`), used by `x or default` and `if not x`. -/
def jTruthy : JValue → Bool
  | .null => false
  | .bool b => b
  | .num n => n != 0
  | .str s => s != ""
  | .arr xs => !xs.isEmpty
  | .obj fs => !fs.isEmpty

/-- Is the value a JSON object (a Python dict)? -/
def jIsObj : JValue → Bool
  | .obj _ => true
  | _ => false

/-- Python equality between a JValue and a string (`v == s`); never raises. -/
def jEqStr (v : JValue) (s : String) : Bool :=
  match v with
  | .str t => t == s
  | _ => false

/-- Dictionary lookup on an association list with LAST-write-wins semantics:
a Python dict literal with a duplicated key keeps the value of the last
occurrence, and `json.loads` behaves the same way on duplicated object keys. -/
def pyGet {α : Type} (d : List (String × α)) (k : String) : Option α :=
  match d with
  | [] => none
  | kv :: rest =>
    match pyGet rest k with
    | some v => some v
    | none => if kv.1 == k then some kv.2 else none

/-- Python `d[k] = v`: update the value of an existing key in place (position
preserved) or append a fresh binding at the end. -/
def pyInsert {α : Type} (d : List (String × α)) (k : String) (v : α) :
    List (String × α) :=
  if d.any (fun kv => kv.1 == k) then
    d.map (fun kv => if kv.1 == k then (kv.1, v) else kv)
  else
    d ++ [(k, v)]

/-- Field access on a JSON object; `none` when the receiver is not an object
or the key is missing. Used only in theorem statements as an observer. -/
def jField (v : JValue) (k : String) : Option JValue :=
  match v with
  | .obj fs => pyGet fs k
  | _ => none

/-- Python exceptions relevant to the server: a plain exception with its
description, or a FastAPI HTTPException carrying a detail string. -/
inductive PyErr where
  | exc (desc : String)
  | http (detail : String)

/-- The description `str(e)` used when an exception is converted to data. -/
def PyErr.toDesc : PyErr → String
  | .exc d => d
  | .http d => d

/-- Python `v.get(k)` (default `None`): raises AttributeError when the
receiver is not a dict. -/
def jGet (v : JValue) (k : String) : Except PyErr JValue :=
  match v with
  | .obj fs => .ok ((pyGet fs k).getD .null)
  | _ => .error (.exc ("AttributeError: " ++ jTypeName v
      ++ " object has no attribute get"))

/-- Python `v.get(k, d)`: raises AttributeError when the receiver is not a
dict. -/
def jGetD (v : JValue) (k : String) (d : JValue) : Except PyErr JValue :=
  match v with
  | .obj fs => .ok ((pyGet fs k).getD d)
  | _ => .error (.exc ("AttributeError: " ++ jTypeName v
      ++ " object has no attribute get"))

/-- Python `d.get(key)` where `d` is a string-keyed dict and `key` is an
arbitrary value: a string key is looked up, other hashable values match no
string key, and unhashable values (lists, dicts) raise TypeError. -/
def pyGetKey {α : Type} (d : List (String × α)) (k : JValue) :
    Except PyErr (Option α) :=
  match k with
  | .str s => .ok (pyGet d s)
  | .arr _ => .error (.exc "TypeError: unhashable type: list")
  | .obj _ => .error (.exc "TypeError: unhashable type: dict")
  | _ => .ok none

mutual

/-- Serialization of a result value (`json.dumps`).  The emitted text is
never inspected by any property of the specification, so the exact
whitespace of the `indent=2` rendering of Python is not reproduced. -/
def jsonDumps : JValue → String
  | .null => "null"
  | .bool true => "true"
  | .bool false => "false"
  | .num n => toString n
  | .str s => "\"" ++ s ++ "\""
  | .arr xs => "[" ++ jsonDumpsList xs ++ "]"
  | .obj fs => "\x7b" ++ jsonDumpsFields fs ++ "\x7d"

def jsonDumpsList : List JValue → String
  | [] => ""
  | [x] => jsonDumps x
  | x :: y :: xs => jsonDumps x ++ ", " ++ jsonDumpsList (y :: xs)

def jsonDumpsFields : List (String × JValue) → String
  | [] => ""
  | [(k, v)] => "\"" ++ k ++ "\": " ++ jsonDumps v
  | (k, v) :: f :: fs =>
    "\"" ++ k ++ "\": " ++ jsonDumps v ++ ", " ++ jsonDumpsFields (f :: fs)

end

/-- Rendering of a value inside an f-string (`f"... \x7bname\x7d"`), as in
the unknown-tool message: strings render verbatim.  Containers are only ever
rendered for log-level diagnostics, so their exact Python repr is not
reproduced. -/
def pyFormat : JValue → String
  | .null => "None"
  | .bool true => "True"
  | .bool false => "False"
  | .num n => toString n
  | .str s => s
  | .arr _ => "[...]"
  | .obj _ => "\x7b...\x7d"

/-- `MCP_PROTOCOL_VERSION = "2025-06-18"`. -/
def MCP_PROTOCOL_VERSION : String := "2025-06-18"

/-- `SESSION_QUEUE_MAX = 100`. -/
def SESSION_QUEUE_MAX : Nat := 100

/-- `jrpc_result(id_, result)`. -/
def jrpc_result (id_ : JValue) (result : JValue) : JValue :=
  .obj [("jsonrpc", .str "2.0"), ("id", id_), ("result", result)]

/-- `jrpc_error(id_, code, msg, data=None)`; `data or \x7b\x7d` substitutes the
empty object for a falsy data argument. -/
def jrpc_error (id_ : JValue) (code : Int) (msg : String)
    (data : Option JValue) : JValue :=
  .obj [("jsonrpc", .str "2.0"), ("id", id_),
        ("error", .obj [("code", .num code), ("message", .str msg),
          ("data", match data with
            | some d => if jTruthy d then d else .obj []
            | none => .obj [])])]

/-- A customer record of `MOCK_CUSTOMERS`.  The address is a `JValue`
because `update_address` stores the raw posted value. -/
structure Customer where
  customer_id : String
  name : String
  email : String
  phone : String
  address : JValue
  kyc_status : String
  date_created : String

/-- A product record of `MOCK_PRODUCTS`.  Each source literal carries a
subset of these keys; absent keys are `none`.  Monetary literals are whole
numbers in the data and are never computed with, so they are integers. -/
structure Product where
  product_id : String
  type : String
  status : String
  balance : Option Int := none
  limit : Option Int := none
  principal : Option Int := none
  swift_code : Option String := none
  bic_code : Option String := none
  bank_name : Option String := none
  routing_number : Option String := none
  account_number : Option String := none

/-- The fields of a customer dict, in source literal order. -/
def customerFields (c : Customer) : List (String × JValue) :=
  [("customer_id", .str c.customer_id), ("name", .str c.name),
   ("email", .str c.email), ("phone", .str c.phone), ("address", c.address),
   ("kyc_status", .str c.kyc_status), ("date_created", .str c.date_created)]

/-- The dict of a product record, in source literal order (each literal has
exactly one of balance, limit, principal, and the banking keys only when
present). -/
def Product.toJ (p : Product) : JValue :=
  .obj ([("product_id", .str p.product_id), ("type", .str p.type),
        ("status", .str p.status)]
    ++ (match p.balance with | some b => [("balance", JValue.num b)] | none => [])
    ++ (match p.limit with | some l => [("limit", JValue.num l)] | none => [])
    ++ (match p.principal with | some q => [("principal", JValue.num q)] | none => [])
    ++ (match p.swift_code with | some s => [("swift_code", JValue.str s)] | none => [])
    ++ (match p.bic_code with | some s => [("bic_code", JValue.str s)] | none => [])
    ++ (match p.bank_name with | some s => [("bank_name", JValue.str s)] | none => [])
    ++ (match p.routing_number with | some s => [("routing_number", JValue.str s)] | none => [])
    ++ (match p.account_number with | some s => [("account_number", JValue.str s)] | none => []))

/-- `MOCK_CUSTOMERS`. -/
def MOCK_CUSTOMERS : List (String × Customer) :=
  [("CUST001",
    { customer_id := "CUST001", name := "John Smith",
      email := "john.smith@email.com", phone := "+1-555-0123",
      address := .str "123 Main St, New York, NY 10001",
      kyc_status := "VERIFIED", date_created := "2020-01-15" }),
   ("CUST002",
    { customer_id := "CUST002", name := "Sarah Johnson",
      email := "sarah.johnson@email.com", phone := "+1-555-0456",
      address := .str "456 Oak Ave, Los Angeles, CA 90210",
      kyc_status := "PENDING", date_created := "2021-03-22" }),
   ("CUST003",
    { customer_id := "CUST003", name := "Michael Brown",
      email := "michael.brown@email.com", phone := "+1-555-0789",
      address := .str "789 Pine St, Chicago, IL 60601",
      kyc_status := "VERIFIED", date_created := "2019-07-10" }),
   ("42",
    { customer_id := "42", name := "Bernd Ruecker",
      email := "bernd.it.depends.ruecker@gmail.com", phone := "+1-555-0789",
      address := .str "789 Pine St, Chicago, IL 60601",
      kyc_status := "VERIFIED", date_created := "2019-07-10" })]

/-- `MOCK_IDENTIFIERS`, kept exactly as the source literal: the key
`"BOFAUS3N"` occurs twice, and `pyGet` (last-write-wins, the semantics of a
Python dict literal) resolves it to the later value `"CUST42"`. -/
def MOCK_IDENTIFIERS : List (String × String) :=
  [("ACC123456789", "CUST001"),
   ("ACC987654321", "CUST002"),
   ("ACC555666777", "CUST003"),
   ("ACC555666778", "42"),
   ("****1234", "CUST001"),
   ("****5678", "CUST002"),
   ("****9012", "CUST003"),
   ("CHASUS33", "CUST001"),
   ("BOFAUS3N", "CUST002"),
   ("CITIUS33", "CUST003"),
   ("BOFAUS3N", "CUST42"),
   ("42", "42")]

/-- `MOCK_PRODUCTS`. -/
def MOCK_PRODUCTS : List (String × List Product) :=
  [("CUST001",
    [{ product_id := "CHK001", type := "checking_account", status := "active",
       balance := some 2500, swift_code := some "CHASUS33",
       bic_code := some "CHASUS33", bank_name := some "Chase Bank",
       routing_number := some "021000021", account_number := some "ACC123456789" },
     { product_id := "CC001", type := "credit_card", status := "active",
       limit := some 5000 },
     { product_id := "SAV001", type := "savings_account", status := "active",
       balance := some 15000, swift_code := some "CHASUS33",
       bic_code := some "CHASUS33", bank_name := some "Chase Bank",
       routing_number := some "021000021", account_number := some "SAV123456789" }]),
   ("CUST002",
    [{ product_id := "CHK002", type := "checking_account", status := "active",
       balance := some 1200, swift_code := some "BOFAUS3N",
       bic_code := some "BOFAUS3N", bank_name := some "Bank of America",
       routing_number := some "026009593", account_number := some "ACC987654321" },
     { product_id := "LON001", type := "personal_loan", status := "active",
       principal := some 10000 }]),
   ("CUST003",
    [{ product_id := "CHK003", type := "checking_account", status := "frozen",
       balance := some 3200, swift_code := some "CITIUS33",
       bic_code := some "CITIUS33", bank_name := some "Citibank",
       routing_number := some "021000089", account_number := some "ACC555666777" },
     { product_id := "CC003", type := "credit_card", status := "active",
       limit := some 10000 },
     { product_id := "SAV003", type := "savings_account", status := "active",
       balance := some 25000, swift_code := some "CITIUS33",
       bic_code := some "CITIUS33", bank_name := some "Citibank",
       routing_number := some "021000089", account_number := some "SAV555666777" },
     { product_id := "MTG001", type := "mortgage", status := "active",
       principal := some 250000 }]),
   ("42",
    [{ product_id := "CHK042", type := "checking_account", status := "active",
       balance := some 5000, swift_code := some "BOFAUS3N",
       bic_code := some "BOFAUS3N", bank_name := some "Bank of America",
       routing_number := some "026009593", account_number := some "ACC555666778" },
     { product_id := "CC042", type := "credit_card", status := "active",
       limit := some 15000 },
     { product_id := "SAV042", type := "savings_account", status := "active",
       balance := some 50000, swift_code := some "BOFAUS3N",
       bic_code := some "BOFAUS3N", bank_name := some "Bank of America",
       routing_number := some "026009593", account_number := some "SAV555666778" },
     { product_id := "MTG042", type := "mortgage", status := "active",
       principal := some 400000 }])]

/-- `ACCOUNT_STATUS`. -/
def ACCOUNT_STATUS : List (String × String) :=
  [("CHK001", "active"), ("CHK002", "active"), ("CHK003", "frozen"),
   ("CHK042", "active"), ("CC001", "active"), ("CC003", "active"),
   ("CC042", "active"), ("SAV001", "active"), ("SAV003", "active"),
   ("SAV042", "active"), ("LON001", "active"), ("MTG001", "active"),
   ("MTG042", "active")]

/-- The mutable domain data: `MOCK_CUSTOMERS`, `MOCK_PRODUCTS` and
`ACCOUNT_STATUS` are module-level dicts mutated in place by the tools. -/
structure BankState where
  customers : List (String × Customer)
  products : List (String × List Product)
  accountStatus : List (String × String)

/-- The initial domain data as defined at module load. -/
def bankInit : BankState :=
  { customers := MOCK_CUSTOMERS, products := MOCK_PRODUCTS,
    accountStatus := ACCOUNT_STATUS }

/-- Nondeterministic inputs of a single tool invocation: the wall-clock
timestamp (`datetime.now().isoformat()`) and up to two uuid hex draws
(`uuid.uuid4().hex[:8].upper()`), threaded explicitly. -/
structure Ambient where
  now : String
  u1 : String
  u2 : String

/-- Option-String versus JValue under Python `==` (a missing `dict.get`
yields `None`, which is equal only to `None`); never raises. -/
def jEqOptStr (o : Option String) (v : JValue) : Bool :=
  match o, v with
  | some s, .str t => s == t
  | none, .null => true
  | _, _ => false

/-- Render an optional string the way `dict.get` exposes it (`None` = null). -/
def jOfOptStr : Option String → JValue
  | some s => .str s
  | none => .null

/-- `search_customer(identifier)`: resolve via `MOCK_IDENTIFIERS.get`;
`if not customer_id` treats both a missing key and an empty mapped value as
absent. -/
def search_customer (now : String) (identifier : JValue) :
    Except PyErr JValue := do
  let customer_id ← pyGetKey MOCK_IDENTIFIERS identifier
  match customer_id with
  | some cid =>
    if cid == "" then
      .ok (.obj [("success", .bool false), ("error", .str "Customer not found"),
        ("identifier", identifier)])
    else
      .ok (.obj [("success", .bool true), ("customer_id", .str cid),
        ("identifier", identifier), ("timestamp", .str now)])
  | none =>
    .ok (.obj [("success", .bool false), ("error", .str "Customer not found"),
      ("identifier", identifier)])

/-- `get_customer_profile(customer_id)`; the success payload spreads the
customer dict between the success flag and the timestamp. -/
def get_customer_profile (now : String) (customer_id : JValue)
    (st : BankState) : Except PyErr JValue := do
  let customer ← pyGetKey st.customers customer_id
  match customer with
  | none =>
    .ok (.obj [("success", .bool false), ("error", .str "Customer not found"),
      ("customer_id", customer_id)])
  | some c =>
    .ok (.obj (("success", .bool true) :: customerFields c
      ++ [("timestamp", .str now)]))

/-- `get_active_products(customer_id)`: `MOCK_PRODUCTS.get(customer_id, [])`
followed by an emptiness check. -/
def get_active_products (now : String) (customer_id : JValue)
    (st : BankState) : Except PyErr JValue := do
  let found ← pyGetKey st.products customer_id
  let products := found.getD []
  if products.isEmpty then
    .ok (.obj [("success", .bool false),
      ("error", .str "No products found for customer"),
      ("customer_id", customer_id)])
  else
    .ok (.obj [("success", .bool true), ("customer_id", customer_id),
      ("products", .arr (products.map Product.toJ)),
      ("total_products", .num products.length), ("timestamp", .str now)])

/-- The double loop of `get_banking_details`: first product, in customer
dict order then product list order, whose `product_id` equals the argument. -/
def findAccount (account_id : JValue) :
    List (String × List Product) → Option (String × Product)
  | [] => none
  | (cid, ps) :: rest =>
    match ps.find? (fun p => jEqStr account_id p.product_id) with
    | some p => some (cid, p)
    | none => findAccount account_id rest

/-- `get_banking_details(account_id)`; pure (the argument is only compared
with `==`, which never raises). -/
def get_banking_details (now : String) (account_id : JValue)
    (st : BankState) : JValue :=
  match findAccount account_id st.products with
  | some (cid, p) =>
    if p.type == "checking_account" || p.type == "savings_account" then
      .obj [("success", .bool true),
        ("banking_details", .obj
          [("account_id", account_id), ("customer_id", .str cid),
           ("account_type", .str p.type), ("status", .str p.status),
           ("swift_code", jOfOptStr p.swift_code),
           ("bic_code", jOfOptStr p.bic_code),
           ("bank_name", jOfOptStr p.bank_name),
           ("routing_number", jOfOptStr p.routing_number),
           ("account_number", jOfOptStr p.account_number),
           ("balance", .num (p.balance.getD 0))]),
        ("timestamp", .str now)]
    else
      .obj [("success", .bool false),
        ("error", .str "Account type does not support international transfers"),
        ("account_id", account_id), ("account_type", .str p.type)]
  | none =>
    .obj [("success", .bool false), ("error", .str "Account not found"),
      ("account_id", account_id)]

/-- The `account_info` dict collected by `search_by_swift_bic`. -/
def swiftAccountInfo (cid : String) (customerName : String) (p : Product) :
    JValue :=
  .obj [("account_id", .str p.product_id), ("customer_id", .str cid),
    ("customer_name", .str customerName), ("account_type", .str p.type),
    ("status", .str p.status), ("swift_code", jOfOptStr p.swift_code),
    ("bic_code", jOfOptStr p.bic_code), ("bank_name", jOfOptStr p.bank_name),
    ("routing_number", jOfOptStr p.routing_number)]

/-- `search_by_swift_bic(swift_bic_code)`; pure.  The customer name falls
back to "Unknown" when the owning customer id is not in `MOCK_CUSTOMERS`. -/
def search_by_swift_bic (now : String) (swift_bic_code : JValue)
    (st : BankState) : JValue :=
  let matching := (st.products.map (fun cp =>
    ((cp.2.filter (fun p =>
        jEqOptStr p.swift_code swift_bic_code
          || jEqOptStr p.bic_code swift_bic_code)).map
      (swiftAccountInfo cp.1
        (match pyGet st.customers cp.1 with
         | some c => c.name
         | none => "Unknown"))))).flatten
  if matching.isEmpty then
    .obj [("success", .bool false),
      ("error", .str "No accounts found for SWIFT/BIC code"),
      ("swift_bic_code", swift_bic_code)]
  else
    .obj [("success", .bool true), ("swift_bic_code", swift_bic_code),
      ("matching_accounts", .arr matching),
      ("total_accounts", .num matching.length), ("timestamp", .str now)]

/-- The per-customer loop body of freeze/unfreeze: set the status of the
first product whose id matches (the loop breaks after the first match). -/
def setFirstStatus (account_id newStatus : String) :
    List Product → List Product
  | [] => []
  | p :: ps =>
    if p.product_id == account_id then { p with status := newStatus } :: ps
    else p :: setFirstStatus account_id newStatus ps

/-- The shared body of `freeze_account` and `unfreeze_account`: membership
test in `ACCOUNT_STATUS` (raising TypeError on an unhashable argument), then
in-place status update in `ACCOUNT_STATUS` and in every customer product
list of `MOCK_PRODUCTS`. -/
def setAccountStatus (action newStatus refPrefix : String)
    (now ref : String) (account_id : JValue) (st : BankState) :
    Except PyErr (JValue × BankState) :=
  match account_id with
  | .arr _ => .error (.exc "TypeError: unhashable type: list")
  | .obj _ => .error (.exc "TypeError: unhashable type: dict")
  | .str s =>
    match pyGet st.accountStatus s with
    | none =>
      .ok (.obj [("success", .bool false), ("error", .str "Account not found"),
        ("account_id", account_id)], st)
    | some _ =>
      .ok (.obj [("success", .bool true), ("account_id", account_id),
          ("action", .str action), ("new_status", .str newStatus),
          ("timestamp", .str now),
          ("reference_id", .str (refPrefix ++ "-" ++ ref))],
        { st with
          accountStatus := pyInsert st.accountStatus s newStatus,
          products := st.products.map
            (fun cp => (cp.1, setFirstStatus s newStatus cp.2)) })
  | _ =>
    .ok (.obj [("success", .bool false), ("error", .str "Account not found"),
      ("account_id", account_id)], st)

/-- `freeze_account(account_id)`. -/
def freeze_account (now ref : String) (account_id : JValue) (st : BankState) :
    Except PyErr (JValue × BankState) :=
  setAccountStatus "freeze" "frozen" "FRZ" now ref account_id st

/-- `unfreeze_account(account_id)`. -/
def unfreeze_account (now ref : String) (account_id : JValue)
    (st : BankState) : Except PyErr (JValue × BankState) :=
  setAccountStatus "unfreeze" "active" "UFZ" now ref account_id st

/-- `reset_password(customer_id)`; no state change. -/
def reset_password (now temp ref : String) (customer_id : JValue)
    (st : BankState) : Except PyErr JValue := do
  let customer ← pyGetKey st.customers customer_id
  match customer with
  | none =>
    .ok (.obj [("success", .bool false), ("error", .str "Customer not found"),
      ("customer_id", customer_id)])
  | some _ =>
    .ok (.obj [("success", .bool true), ("customer_id", customer_id),
      ("action", .str "password_reset"),
      ("temporary_password", .str ("TEMP-" ++ temp)),
      ("expires_in_hours", .num 24), ("timestamp", .str now),
      ("reference_id", .str ("PWD-" ++ ref))])

/-- `update_address(customer_id, new_address)`: mutates the address of the
stored customer dict in place. -/
def update_address (now ref : String) (customer_id new_address : JValue)
    (st : BankState) : Except PyErr (JValue × BankState) :=
  match customer_id with
  | .arr _ => .error (.exc "TypeError: unhashable type: list")
  | .obj _ => .error (.exc "TypeError: unhashable type: dict")
  | .str s =>
    match pyGet st.customers s with
    | none =>
      .ok (.obj [("success", .bool false), ("error", .str "Customer not found"),
        ("customer_id", customer_id)], st)
    | some c =>
      .ok (.obj [("success", .bool true), ("customer_id", customer_id),
          ("action", .str "address_update"), ("old_address", c.address),
          ("new_address", new_address), ("timestamp", .str now),
          ("reference_id", .str ("ADR-" ++ ref))],
        { st with customers :=
            pyInsert st.customers s { c with address := new_address } })
  | _ =>
    .ok (.obj [("success", .bool false), ("error", .str "Customer not found"),
      ("customer_id", customer_id)], st)

/-- The uniform invocation contract of a registered tool. -/
abbrev ToolFn := Ambient → JValue → BankState → Except PyErr (JValue × BankState)

/-- An input schema of the shape shared by every tool: an object type with
the given `(property, description)` pairs and the given required names. -/
def toolSchema (props : List (String × String)) (req : List String) : JValue :=
  .obj [("type", .str "object"),
    ("properties", .obj (props.map (fun pd =>
      (pd.1, JValue.obj [("type", JValue.str "string"),
        ("description", JValue.str pd.2)])))),
    ("required", .arr (req.map JValue.str))]

/-- `TOOL_REGISTRY`: tool name to (argument-extracting closure, input
schema), in source order.  Each closure reads its arguments with
`args.get(key, "")` exactly as the source lambdas do. -/
def TOOL_REGISTRY : List (String × (ToolFn × JValue)) :=
  [("search_customer",
    (fun amb args st => do
      let identifier ← jGetD args "identifier" (.str "")
      let r ← search_customer amb.now identifier
      .ok (r, st),
     toolSchema
       [("identifier",
         "Customer identifier: account number, card number, or SWIFT/BIC code")]
       ["identifier"])),
   ("get_customer_profile",
    (fun amb args st => do
      let cid ← jGetD args "customer_id" (.str "")
      let r ← get_customer_profile amb.now cid st
      .ok (r, st),
     toolSchema [("customer_id", "Unique customer identifier")]
       ["customer_id"])),
   ("get_active_products",
    (fun amb args st => do
      let cid ← jGetD args "customer_id" (.str "")
      let r ← get_active_products amb.now cid st
      .ok (r, st),
     toolSchema [("customer_id", "Unique customer identifier")]
       ["customer_id"])),
   ("freeze_account",
    (fun amb args st => do
      let aid ← jGetD args "account_id" (.str "")
      freeze_account amb.now amb.u1 aid st,
     toolSchema [("account_id", "Account/product identifier to freeze")]
       ["account_id"])),
   ("unfreeze_account",
    (fun amb args st => do
      let aid ← jGetD args "account_id" (.str "")
      unfreeze_account amb.now amb.u1 aid st,
     toolSchema [("account_id", "Account/product identifier to unfreeze")]
       ["account_id"])),
   ("reset_password",
    (fun amb args st => do
      let cid ← jGetD args "customer_id" (.str "")
      let r ← reset_password amb.now amb.u1 amb.u2 cid st
      .ok (r, st),
     toolSchema [("customer_id", "Customer identifier for password reset")]
       ["customer_id"])),
   ("update_address",
    (fun amb args st => do
      let cid ← jGetD args "customer_id" (.str "")
      let addr ← jGetD args "new_address" (.str "")
      update_address amb.now amb.u1 cid addr st,
     toolSchema [("customer_id", "Customer identifier"),
         ("new_address", "New address for the customer")]
       ["customer_id", "new_address"])),
   ("get_banking_details",
    (fun amb args st => do
      let aid ← jGetD args "account_id" (.str "")
      .ok (get_banking_details amb.now aid st, st),
     toolSchema
       [("account_id", "Account identifier to get banking details for")]
       ["account_id"])),
   ("search_by_swift_bic",
    (fun amb args st => do
      let code ← jGetD args "swift_bic_code" (.str "")
      .ok (search_by_swift_bic amb.now code st, st),
     toolSchema [("swift_bic_code", "SWIFT or BIC code to search for")]
       ["swift_bic_code"]))]

/-- Python `str.title()` restricted to what the tool names need: the first
letter of each alphabetic run is uppercased and the rest lowercased. -/
def pyTitleGo : Bool → List Char → List Char
  | _, [] => []
  | prevAlpha, c :: cs =>
    if c.isAlpha then
      (if prevAlpha then c.toLower else c.toUpper) :: pyTitleGo true cs
    else c :: pyTitleGo false cs

/-- Python `s.title()`. -/
def pyTitle (s : String) : String := ⟨pyTitleGo false s.data⟩

/-- `tools_list_result(cursor)`: full catalog in registry order, cursor
accepted but ignored, `nextCursor` always null. -/
def tools_list_result : JValue :=
  .obj [("tools", .arr (TOOL_REGISTRY.map (fun nt =>
      JValue.obj [("name", JValue.str nt.1),
        ("title", JValue.str (pyTitle (nt.1.replace "_" " "))),
        ("description", JValue.str (pyTitle (nt.1.replace "_" " ")
          ++ " - Customer account management tool")),
        ("inputSchema", nt.2.2)]))),
    ("nextCursor", .null)]

/-- `mcp_tool_success(out)`. -/
def mcp_tool_success (out : JValue) : JValue :=
  .obj [("content", .arr [.obj [("type", .str "text"),
        ("text", .str (jsonDumps out))]]),
    ("structuredContent", out), ("isError", .bool false)]

/-- `mcp_tool_error(msg, details=None)`; the structured content spreads the
details dict after the error message (callers pass a dict or nothing). -/
def mcp_tool_error (msg : String) (details : Option JValue) : JValue :=
  .obj [("content", .arr [.obj [("type", .str "text"), ("text", .str msg)]]),
    ("structuredContent", .obj (("error", .str msg) ::
      (match details with
       | some (.obj fs) => fs
       | _ => []))),
    ("isError", .bool true)]

/-- `tools_call_result(name, arguments)`: registry lookup, `arguments or
\x7b\x7d`, invocation with every exception from the tool body caught and
converted to a tool-level error carrying the exception description. -/
def tools_call_result (amb : Ambient) (st : BankState) (name : JValue)
    (arguments : JValue) : JValue × BankState :=
  match (match name with | .str s => pyGet TOOL_REGISTRY s | _ => none) with
  | none => (mcp_tool_error ("Unknown tool: " ++ pyFormat name) none, st)
  | some (impl, _) =>
    match impl amb (if jTruthy arguments then arguments else .obj []) st with
    | .ok (result, st') => (mcp_tool_success result, st')
    | .error e =>
      (mcp_tool_error "Tool execution failed"
        (some (.obj [("error", .str e.toDesc)])), st)

/-- The body of `handle_method` inside its try block, as an `Except`
computation: the exceptions the source can raise here are the
AttributeErrors of `params.get` on a non-dict params value. -/
def handle_method_core (amb : Ambient) (st : BankState) (method : JValue)
    (params : JValue) (id_ : JValue) :
    Except PyErr (Option JValue × BankState) := do
  if jEqStr method "initialize" then
    let pv ← jGet params "protocolVersion"
    let client_version := if jTruthy pv then pv else .str MCP_PROTOCOL_VERSION
    .ok (some (jrpc_result id_ (.obj [
      ("protocolVersion", client_version),
      ("capabilities", .obj [("tools", .obj [("listChanged", .bool true)])]),
      ("serverInfo", .obj [("name", .str "account-support-mcp-server"),
        ("version", .str "1.0.0"),
        ("description", .str "Customer Account Support MCP Server")])])), st)
  else if jEqStr method "notifications/initialized" then
    .ok (none, st)
  else if jEqStr method "ping" then
    .ok (some (jrpc_result id_ (.obj [])), st)
  else if jEqStr method "tools/list" then
    let _cursor ← jGet params "cursor"
    .ok (some (jrpc_result id_ tools_list_result), st)
  else if jEqStr method "tools/call" then
    let tool_name ← jGet params "name"
    let arguments ← jGetD params "arguments" (.obj [])
    let rs := tools_call_result amb st tool_name arguments
    .ok (some (jrpc_result id_ rs.1), rs.2)
  else
    .ok (some (jrpc_error id_ (-32601) "Method not found"
      (some (.obj [("method", method)]))), st)

/-- `handle_method(method, params, id_)` with its exception handlers: an
HTTPException becomes a `-32602` error, any other exception a `-32603`
internal error; the dispatcher therefore always returns a value. -/
def handle_method (amb : Ambient) (st : BankState) (method : JValue)
    (params : JValue) (id_ : JValue) : Option JValue × BankState :=
  match handle_method_core amb st method params id_ with
  | .ok rs => rs
  | .error (.http detail) =>
    (some (jrpc_error id_ (-32602) detail none), st)
  | .error (.exc _) =>
    (some (jrpc_error id_ (-32603) "Internal error" none), st)

/-- Deployment configuration read from the environment: the allow-list
`ALLOWED_ORIGINS` and `os.getenv("SERVICE_URL")` (`none` = unset). -/
structure Env where
  allowedOrigins : List String
  serviceUrl : Option String

/-- The default `ALLOWED_ORIGINS` when no `SERVICE_URL` or
`ALLOWED_ORIGINS` environment variables are set. -/
def defaultAllowedOrigins : List String :=
  ["http://localhost:3000", "http://localhost", "http://127.0.0.1",
   "http://host.docker.internal:8200", "http://host.docker.internal:3000",
   "http://host.docker.internal"]

/-- A local-development environment (no `SERVICE_URL`). -/
def envLocal : Env := { allowedOrigins := defaultAllowedOrigins, serviceUrl := none }

/-- Split a character list at every occurrence of one separator character
(the splitting of Python `str.split` with a one-character separator). -/
def splitCharAux (sep : Char) : List Char → List (List Char)
  | [] => [[]]
  | c :: cs =>
    let r := splitCharAux sep cs
    if c = sep then [] :: r else (c :: r.headD []) :: r.tail

/-- Python `s.split("/")`. -/
def pySplitSlash (s : String) : List String :=
  (splitCharAux '/' s.data).map String.mk

/-- Python `"/".join(parts)`. -/
def joinSlash : List String → String
  | [] => ""
  | [s] => s
  | s :: t :: rest => s ++ "/" ++ joinSlash (t :: rest)

/-- Split a character list at every (non-overlapping, leftmost-first)
occurrence of "//", the splitting of Python `s.split("//")`. -/
def splitDoubleSlashAux : List Char → List (List Char)
  | [] => [[]]
  | '/' :: '/' :: cs => [] :: splitDoubleSlashAux cs
  | c :: cs =>
    (c :: (splitDoubleSlashAux cs).headD []) :: (splitDoubleSlashAux cs).tail

/-- The host part of `SERVICE_URL` as computed by
`service_url.split("//")[1].split("/")[0]` (the source would raise an
IndexError on a value without `//`; configured values are full URLs, and no
property exercises that corner, so the missing part defaults to ""). -/
def serviceUrlHost (su : String) : String :=
  String.mk ((splitCharAux '/'
    ((splitDoubleSlashAux su.data).getD 1 [])).headD [])

/-- `check_origin(origin)` as a boolean: `true` means the request passes
(no origin header, origin host in the allow-list, or the Cloud Run
SERVICE_URL escape hatch), `false` means HTTP 403.  The host is
`"/".join(origin.split("/", 3)[:3])`; taking the first three parts of the
full split coincides with the maxsplit-3 split of the source. -/
def check_origin (env : Env) (origin : Option String) : Bool :=
  match origin with
  | none => true
  | some o =>
    let host := joinSlash ((pySplitSlash o).take 3)
    if env.allowedOrigins.contains host then true
    else
      let su := env.serviceUrl.getD ""
      su != "" && (o.startsWith su || host.startsWith (serviceUrlHost su))

/-- An item of a session queue: `(event kind, data)`. -/
abbrev OutMsg := String × String

/-- The result of `await queue.put(item)` on an `asyncio.Queue` with
`maxsize = SESSION_QUEUE_MAX`: the item is appended when a slot is free;
when the queue is full the coroutine SUSPENDS until the consumer frees a
slot.  The coroutine `put` never raises `asyncio.QueueFull` (only
`put_nowait` does). -/
inductive PutResult where
  | enqueued (q : List OutMsg)
  | suspended

/-- `await queue.put(item)` with `maxsize`. -/
def queuePut (maxsize : Nat) (q : List OutMsg) (item : OutMsg) : PutResult :=
  if q.length < maxsize then .enqueued (q ++ [item]) else .suspended

/-- The POST body as the inbox sees it: `request.json()` either raises or
yields a parsed value. -/
inductive PyBody where
  | unparsable
  | parsed (v : JValue)

/-- The observable HTTP outcome of one `POST /inbox/{session_id}`:
`suspendedOnFullQueue` is the state in which the handler coroutine is parked
inside `await queue.put` on a full queue (the `except asyncio.QueueFull`
eviction fallback of the source is unreachable, because the awaiting `put`
suspends instead of raising). -/
inductive HttpOut where
  | forbidden (detail : String)
  | notFound (detail : String)
  | badRequest (body : JValue)
  | noContent
  | suspendedOnFullQueue

/-- The session registry: session id to queue contents. -/
abbrev Sessions := List (String × List OutMsg)

/-- `POST /inbox/{session_id}`: origin check (403), session existence
(404), JSON parse (400 / -32700), object check (400 / -32600), then
dispatch; notifications (absent or null id) and response-less methods
answer 204 without touching the queue; otherwise the serialized response is
put on the session queue — which suspends when the queue is full, see
`queuePut` — and the POST answers 204. -/
def inbox (env : Env) (amb : Ambient) (st : BankState) (sessions : Sessions)
    (session_id : String) (origin : Option String) (body : PyBody) :
    HttpOut × Sessions × BankState :=
  if !check_origin env origin then
    (.forbidden "Origin not allowed", sessions, st)
  else if (pyGet sessions session_id).isNone then
    (.notFound "Unknown session", sessions, st)
  else
    match body with
    | .unparsable =>
      (.badRequest (jrpc_error .null (-32700) "Parse error" none), sessions, st)
    | .parsed v =>
      match v with
      | .obj fs =>
        let msg_id := (pyGet fs "id").getD .null
        let method := (pyGet fs "method").getD .null
        let params := (pyGet fs "params").getD (.obj [])
        let is_notification := match msg_id with | .null => true | _ => false
        let rs := handle_method amb st method params msg_id
        match rs.1 with
        | none => (.noContent, sessions, rs.2)
        | some response =>
          if is_notification then (.noContent, sessions, rs.2)
          else
            match queuePut SESSION_QUEUE_MAX
                ((pyGet sessions session_id).getD [])
                ("message", jsonDumps response) with
            | .enqueued q' =>
              (.noContent, pyInsert sessions session_id q', rs.2)
            | .suspended => (.suspendedOnFullQueue, sessions, rs.2)
      | _ =>
        (.badRequest (jrpc_error .null (-32600) "Invalid Request" none),
          sessions, st)

/-- The absolute inbox URL `urljoin(base, f"inbox/\x7bsession_id\x7d")`; every
branch of `external_base_url` returns a base ending in "/", for which
urljoin is plain concatenation. -/
def inboxAbs (base : String) (session_id : String) : String :=
  base ++ "inbox/" ++ session_id

/-- `GET /sse`: the freshly created session queue right after the handler
runs `await queue.put(("endpoint", inbox_abs))` on the empty queue. -/
def sseInitialQueue (base session_id : String) : List OutMsg :=
  [("endpoint", inboxAbs base session_id)]

/-- The only two code paths that enqueue onto an existing session queue
after `GET /sse` created it: a dispatched inbox response, and
`POST /notify-tools-refresh/{session_id}`. -/
inductive EnqueueSrc where
  | inboxResponse (payload : String)
  | toolsRefresh

/-- The queue item each post-creation enqueue site produces: both sites tag
their item `"message"`. -/
def enqueueItem : EnqueueSrc → OutMsg
  | .inboxResponse payload => ("message", payload)
  | .toolsRefresh =>
    ("message", jsonDumps (.obj [("jsonrpc", .str "2.0"),
      ("method", .str "tools/list_changed")]))

/-- Everything ever enqueued on one session queue, in order: the `endpoint`
item placed by the `/sse` handler at session creation, then the items of
the post-creation enqueue sites.  The SSE generator drains this queue in
FIFO order. -/
def sessionEnqueues (base session_id : String) (ops : List EnqueueSrc) :
    List OutMsg :=
  sseInitialQueue base session_id ++ ops.map enqueueItem

/-- Observer: the first text content of an MCP tool result. -/
def firstContentText (v : JValue) : Option JValue :=
  match jField v "content" with
  | some (.arr (c :: _)) => jField c "text"
  | _ => none

/-- Observer: the payload of a successful `Except` computation. -/
def exOk {α : Type} : Except PyErr α → Option α
  | .ok a => some a
  | .error _ => none

lemma pyGet_isSome_eq_any {α : Type} (d : List (String × α)) (k : String) :
    (pyGet d k).isSome = d.any (fun kv => kv.1 == k) := by
  induction d with
  | nil => rfl
  | cons kv rest ih =>
    simp only [pyGet, List.any_cons]
    cases hr : pyGet rest k with
    | some v =>
      rw [hr] at ih
      simp [← ih]
    | none =>
      rw [hr] at ih
      cases hk : kv.1 == k <;> simp [← ih, hk]

lemma pyGet_append_single_self {α : Type} (d : List (String × α)) (k : String)
    (v : α) : pyGet (d ++ [(k, v)]) k = some v := by
  induction d with
  | nil => simp [pyGet]
  | cons kv rest ih => simp [pyGet, ih]

lemma pyGet_append_single_ne {α : Type} (d : List (String × α)) (k : String)
    (v : α) (k' : String) (h : k' ≠ k) :
    pyGet (d ++ [(k, v)]) k' = pyGet d k' := by
  induction d with
  | nil =>
    have hk : (k == k') = false := beq_eq_false_iff_ne.mpr (Ne.symm h)
    simp [pyGet, hk]
  | cons kv rest ih =>
    simp only [List.cons_append, pyGet]
    rw [show pyGet (rest.append [(k, v)]) k' = pyGet rest k' from ih]

lemma any_update_keys {α : Type} (d : List (String × α)) (k : String)
    (v : α) :
    ((d.map (fun kv => if kv.1 == k then (kv.1, v) else kv)).any
        (fun kv => kv.1 == k))
      = d.any (fun kv => kv.1 == k) := by
  induction d with
  | nil => rfl
  | cons kv rest ih =>
    simp only [List.map_cons, List.any_cons, ih]
    congr 1
    split <;> rfl

lemma pyGet_update_of_any {α : Type} (d : List (String × α)) (k : String)
    (v : α) (h : d.any (fun kv => kv.1 == k) = true) :
    pyGet (d.map (fun kv => if kv.1 == k then (kv.1, v) else kv)) k
      = some v := by
  induction d with
  | nil => simp at h
  | cons kv rest ih =>
    cases hr : rest.any (fun kv => kv.1 == k) with
    | true =>
      have hrest := ih hr
      simp only [List.map_cons, pyGet, hrest]
    | false =>
      have hnone : pyGet (rest.map
          (fun kv => if kv.1 == k then (kv.1, v) else kv)) k = none := by
        have hs := pyGet_isSome_eq_any (rest.map
          (fun kv => if kv.1 == k then (kv.1, v) else kv)) k
        rw [any_update_keys, hr] at hs
        cases ho : pyGet (rest.map
            (fun kv => if kv.1 == k then (kv.1, v) else kv)) k with
        | none => rfl
        | some w => rw [ho] at hs; exact absurd hs (by simp)
      have hk : (kv.1 == k) = true := by
        rw [List.any_cons, hr] at h
        simpa using h
      simp only [List.map_cons, pyGet, hnone]
      rw [if_pos hk]
      simp [hk]

lemma pyGet_update_ne {α : Type} (d : List (String × α)) (k : String) (v : α)
    (k' : String) (h : k' ≠ k) :
    pyGet (d.map (fun kv => if kv.1 == k then (kv.1, v) else kv)) k'
      = pyGet d k' := by
  induction d with
  | nil => rfl
  | cons kv rest ih =>
    simp only [List.map_cons, pyGet]
    rw [ih]
    cases hr : pyGet rest k' with
    | some w => rfl
    | none =>
      have hfst : (if kv.1 == k then (kv.1, v) else kv).1 = kv.1 := by
        split <;> rfl
      have h1 : ((if kv.1 == k then (kv.1, v) else kv).1 == k')
          = (kv.1 == k') := by rw [hfst]
      rw [h1]
      by_cases hkv : (kv.1 == k') = true
      · have hkeq : kv.1 = k' := beq_iff_eq.mp hkv
        have hkk : (kv.1 == k) = false :=
          beq_eq_false_iff_ne.mpr (hkeq ▸ h)
        rw [if_pos hkv, if_pos hkv, if_neg (by simp [hkk])]
      · rw [if_neg hkv, if_neg hkv]

lemma pyGet_pyInsert_self {α : Type} (d : List (String × α)) (k : String)
    (v : α) : pyGet (pyInsert d k v) k = some v := by
  unfold pyInsert
  split
  · exact pyGet_update_of_any d k v (by assumption)
  · exact pyGet_append_single_self d k v

lemma pyGet_pyInsert_ne {α : Type} (d : List (String × α)) (k : String)
    (v : α) (k' : String) (h : k' ≠ k) :
    pyGet (pyInsert d k v) k' = pyGet d k' := by
  unfold pyInsert
  split
  · exact pyGet_update_ne d k v k' h
  · exact pyGet_append_single_ne d k v k' h

lemma pyGet_mem {α : Type} (d : List (String × α)) (k : String) (v : α)
    (h : pyGet d k = some v) : (k, v) ∈ d := by
  induction d with
  | nil => cases h
  | cons kv rest ih =>
    simp only [pyGet] at h
    cases hr : pyGet rest k with
    | some w =>
      rw [hr] at h
      cases h
      exact List.mem_cons_of_mem _ (ih hr)
    | none =>
      rw [hr] at h
      by_cases hk : (kv.1 == k) = true
      · rw [if_pos hk] at h
        cases h
        have hkey : kv.1 = k := beq_iff_eq.mp hk
        have : (k, kv.2) = kv := by rw [← hkey]
        rw [this]
        exact List.mem_cons_self _ _
      · rw [if_neg hk] at h
        cases h

/-- The per-element relation left by freeze/unfreeze on a product list:
each entry is untouched, or it is the matched account and only its status
field was replaced. -/
def productFrame (account_id newStatus : String) (p q : Product) : Prop :=
  q = p ∨ (p.product_id = account_id ∧ q = { p with status := newStatus })

lemma setFirstStatus_frame (account_id newStatus : String)
    (ps : List Product) :
    List.Forall₂ (productFrame account_id newStatus) ps
      (setFirstStatus account_id newStatus ps) := by
  induction ps with
  | nil => exact List.Forall₂.nil
  | cons p rest ih =>
    simp only [setFirstStatus]
    split
    · rename_i hbe
      exact List.Forall₂.cons (Or.inr ⟨beq_iff_eq.mp hbe, rfl⟩)
        (List.forall₂_same.mpr (fun q _ => Or.inl rfl))
    · exact List.Forall₂.cons (Or.inl rfl) ih

lemma setFirstStatus_hit (account_id newStatus : String) (ps : List Product)
    (h : (ps.map Product.product_id).Nodup) :
    List.Forall₂ (fun p q => p.product_id = account_id →
        q = { p with status := newStatus }) ps
      (setFirstStatus account_id newStatus ps) := by
  induction ps with
  | nil => exact List.Forall₂.nil
  | cons p rest ih =>
    simp only [List.map_cons, List.nodup_cons] at h
    simp only [setFirstStatus]
    split
    · rename_i hbe
      have hp : p.product_id = account_id := beq_iff_eq.mp hbe
      refine List.Forall₂.cons (fun _ => rfl)
        (List.forall₂_same.mpr (fun q hq hqid => ?_))
      exact absurd (List.mem_map.mpr ⟨q, hq, hqid.trans hp.symm⟩) h.1
    · rename_i hne
      have hp : p.product_id ≠ account_id :=
        fun he => hne (beq_iff_eq.mpr he)
      exact List.Forall₂.cons (fun he => absurd he hp) (ih h.2)

lemma enqueueItem_kind (op : EnqueueSrc) : (enqueueItem op).1 = "message" := by
  cases op <;> rfl

/-- C1: the claim says a POST to a session whose queue already holds
`SESSION_QUEUE_MAX` (100) items never blocks, evicts exactly the oldest
item and returns 204.  The code instead parks the handler inside
`await queue.put` on the full queue (the coroutine `put` suspends when full
and never raises `asyncio.QueueFull`, so the eviction branch in
`except asyncio.QueueFull` is dead code): with a full queue the dispatch of
a `ping` request ends in `suspendedOnFullQueue`, nothing is evicted, and no
204 is produced. -/
theorem c1_full_queue_suspends_post :
    (List.replicate SESSION_QUEUE_MAX (("message", "x") : OutMsg)).length
        = SESSION_QUEUE_MAX
    ∧ inbox envLocal ⟨"T", "A", "B"⟩ bankInit
        [("S", List.replicate SESSION_QUEUE_MAX ("message", "x"))] "S" none
        (.parsed (.obj [("id", .num 1), ("method", .str "ping")]))
      = (.suspendedOnFullQueue,
         [("S", List.replicate SESSION_QUEUE_MAX ("message", "x"))],
         bankInit) :=
  ⟨by simp, rfl⟩

/-- C2: on every newly opened SSE stream the first item ever enqueued on
the session queue is the `endpoint` event carrying the absolute inbox URL
of the session; it is the only `endpoint` item the session ever sees, and
every later enqueue site (dispatched inbox responses,
`/notify-tools-refresh`) only appends `message` items, so in FIFO order the
`endpoint` event precedes every `message` event. -/
theorem c2_endpoint_event_first_and_once (base session_id : String)
    (ops : List EnqueueSrc) :
    (sessionEnqueues base session_id ops).head?
        = some ("endpoint", inboxAbs base session_id)
    ∧ ((sessionEnqueues base session_id ops).filter
        (fun m => m.1 == "endpoint")).length = 1
    ∧ ((sessionEnqueues base session_id ops).tail.all
        (fun m => m.1 == "message")) = true := by
  have hmap : ∀ m ∈ ops.map enqueueItem, (m.1 == "message") = true := by
    intro m hm
    rcases List.mem_map.mp hm with ⟨op, _, rfl⟩
    rw [enqueueItem_kind]
    rfl
  refine ⟨rfl, ?_, ?_⟩
  · have hnone : (ops.map enqueueItem).filter
        (fun m => m.1 == "endpoint") = [] := by
      rw [List.filter_eq_nil_iff]
      intro m hm
      have := hmap m hm
      have hmsg : m.1 = "message" := by
        rcases List.mem_map.mp hm with ⟨op, _, rfl⟩
        exact enqueueItem_kind op
      simp [hmsg]
    show (((("endpoint", inboxAbs base session_id) :: ops.map enqueueItem)).filter
        (fun m => m.1 == "endpoint")).length = 1
    rw [List.filter_cons_of_pos (by rfl), hnone]
    rfl
  · show ((ops.map enqueueItem).all (fun m => m.1 == "message")) = true
    exact List.all_eq_true.mpr hmap

/-- C7, counterexample: an `initialize` request that DOES supply a
`protocolVersion`, namely the empty string, is not echoed: the response
carries the server default "2025-06-18".  The source computes
`params.get("protocolVersion") or MCP_PROTOCOL_VERSION`, and `or` replaces
every falsy supplied value by the default. -/
theorem c7_supplied_empty_version_not_echoed :
    (jField ((handle_method ⟨"T", "A", "B"⟩ bankInit (.str "initialize")
          (.obj [("protocolVersion", .str "")]) (.num 1)).1.getD .null)
        "result").bind (fun r => jField r "protocolVersion")
      = some (.str "2025-06-18")
    ∧ ("2025-06-18" : String) ≠ "" :=
  ⟨rfl, by decide⟩

/-- C7, amended: for every `initialize` request with a dict params value,
the result echoes the supplied `protocolVersion` whenever that value is
truthy, and falls back to the server default "2025-06-18" when the value is
absent or falsy (null, empty string, 0, false, empty containers); the
static capabilities carry `tools.listChanged = true` and the static
serverInfo metadata is attached.  A non-dict params value instead raises
inside the dispatcher and is answered as a -32603 internal error. -/
theorem c7_initialize_echoes_truthy_version (amb : Ambient) (st : BankState)
    (fs : List (String × JValue)) (id_ : JValue) :
    handle_method amb st (.str "initialize") (.obj fs) id_
      = (some (jrpc_result id_ (.obj [
          ("protocolVersion",
            if jTruthy ((pyGet fs "protocolVersion").getD .null)
            then (pyGet fs "protocolVersion").getD .null
            else .str MCP_PROTOCOL_VERSION),
          ("capabilities", .obj [("tools", .obj [("listChanged", .bool true)])]),
          ("serverInfo", .obj [("name", .str "account-support-mcp-server"),
            ("version", .str "1.0.0"),
            ("description", .str "Customer Account Support MCP Server")])])),
         st) := rfl

/-- C8: the `MOCK_IDENTIFIERS` literal contains the key "BOFAUS3N" twice;
dict construction silently keeps the later value, so lookup resolves it to
"CUST42" and not to the earlier "CUST002"; hence `search_customer` on
"BOFAUS3N" succeeds with customer_id "CUST42", while
`get_customer_profile` on "CUST42" fails with "Customer not found". -/
theorem c8_bofaus3n_duplicate_key_shadowing :
    (MOCK_IDENTIFIERS.filter (fun kv => kv.1 == "BOFAUS3N")).length = 2
    ∧ pyGet MOCK_IDENTIFIERS "BOFAUS3N" = some "CUST42"
    ∧ ("CUST42" : String) ≠ "CUST002"
    ∧ (∀ now : String,
        (exOk (search_customer now (.str "BOFAUS3N"))).bind
            (fun r => jField r "success") = some (.bool true)
        ∧ (exOk (search_customer now (.str "BOFAUS3N"))).bind
            (fun r => jField r "customer_id") = some (.str "CUST42"))
    ∧ (∀ now : String,
        (exOk (get_customer_profile now (.str "CUST42") bankInit)).bind
            (fun r => jField r "success") = some (.bool false)
        ∧ (exOk (get_customer_profile now (.str "CUST42") bankInit)).bind
            (fun r => jField r "error") = some (.str "Customer not found")) :=
  ⟨rfl, rfl, by decide, fun _ => ⟨rfl, rfl⟩, fun _ => ⟨rfl, rfl⟩⟩

/-- C3: inbox validation order.  A disallowed origin yields 403 before any
session or body work (for every session table and every body, including
unparsable ones); with the origin admitted, an unknown session id yields
404 for every body, so the dispatcher is never invoked; only then an
unparsable body yields 400 with a JSON-RPC parse-error (-32700) envelope;
and a parsed body that is not an object yields 400 with a JSON-RPC
invalid-request (-32600) envelope.  In each case the session table and the
domain data are untouched. -/
theorem c3_inbox_validation_order :
    (∀ env amb st sessions sid origin body,
      check_origin env origin = false →
        inbox env amb st sessions sid origin body
          = (.forbidden "Origin not allowed", sessions, st))
    ∧ (∀ env amb st sessions sid origin body,
      check_origin env origin = true →
      (pyGet sessions sid).isNone = true →
        inbox env amb st sessions sid origin body
          = (.notFound "Unknown session", sessions, st))
    ∧ (∀ env amb st sessions sid origin,
      check_origin env origin = true →
      (pyGet sessions sid).isSome = true →
        inbox env amb st sessions sid origin .unparsable
          = (.badRequest (jrpc_error .null (-32700) "Parse error" none),
             sessions, st))
    ∧ (∀ env amb st sessions sid origin v,
      check_origin env origin = true →
      (pyGet sessions sid).isSome = true →
      jIsObj v = false →
        inbox env amb st sessions sid origin (.parsed v)
          = (.badRequest (jrpc_error .null (-32600) "Invalid Request" none),
             sessions, st)) := by
  refine ⟨?_, ?_, ?_, ?_⟩
  · intro env amb st sessions sid origin body h
    simp [inbox, h]
  · intro env amb st sessions sid origin body h1 h2
    simp [inbox, h1, h2]
  · intro env amb st sessions sid origin h1 h2
    have h2' : (pyGet sessions sid).isNone = false := by
      rcases hv : pyGet sessions sid with _ | q
      · rw [hv] at h2; exact absurd h2 (by simp)
      · rfl
    simp [inbox, h1, h2']
  · intro env amb st sessions sid origin v h1 h2 h3
    have h2' : (pyGet sessions sid).isNone = false := by
      rcases hv : pyGet sessions sid with _ | q
      · rw [hv] at h2; exact absurd h2 (by simp)
      · rfl
    cases v with
    | obj fs2 => exact absurd h3 (by simp [jIsObj])
    | null => simp [inbox, h1, h2']
    | bool b => simp [inbox, h1, h2']
    | num n => simp [inbox, h1, h2']
    | str s => simp [inbox, h1, h2']
    | arr xs => simp [inbox, h1, h2']

/-- C3 witness: the four validation outcomes at concrete inputs. -/
theorem c3_inbox_validation_order_witness :
    inbox envLocal ⟨"T", "A", "B"⟩ bankInit [("S", [])] "S"
        (some "http://evil.example/page") .unparsable
      = (.forbidden "Origin not allowed", [("S", [])], bankInit)
    ∧ inbox envLocal ⟨"T", "A", "B"⟩ bankInit [] "S" none .unparsable
      = (.notFound "Unknown session", [], bankInit)
    ∧ inbox envLocal ⟨"T", "A", "B"⟩ bankInit [("S", [])] "S" none .unparsable
      = (.badRequest (jrpc_error .null (-32700) "Parse error" none),
         [("S", [])], bankInit)
    ∧ inbox envLocal ⟨"T", "A", "B"⟩ bankInit [("S", [])] "S" none
        (.parsed (.arr []))
      = (.badRequest (jrpc_error .null (-32600) "Invalid Request" none),
         [("S", [])], bankInit) :=
  ⟨c3_inbox_validation_order.1 envLocal ⟨"T", "A", "B"⟩ bankInit [("S", [])]
      "S" (some "http://evil.example/page") .unparsable rfl,
   c3_inbox_validation_order.2.1 envLocal ⟨"T", "A", "B"⟩ bankInit [] "S"
      none .unparsable rfl rfl,
   c3_inbox_validation_order.2.2.1 envLocal ⟨"T", "A", "B"⟩ bankInit
      [("S", [])] "S" none rfl rfl,
   c3_inbox_validation_order.2.2.2 envLocal ⟨"T", "A", "B"⟩ bankInit
      [("S", [])] "S" none (.arr []) rfl rfl rfl⟩

/-- C4: a structurally valid object body whose `id` is absent is a
notification: the POST answers 204 and the session table (hence the
session queue) is untouched whatever the dispatch outcome — the dispatcher
runs (its state effect on the domain data is kept) but its returned value
is discarded; and the same 204-without-enqueue holds for any body whose
dispatch returns no response, id present or not. -/
theorem c4_notification_discards_response :
    (∀ env amb st sessions sid origin fs,
      check_origin env origin = true →
      (pyGet sessions sid).isSome = true →
      pyGet fs "id" = none →
        (inbox env amb st sessions sid origin (.parsed (.obj fs))).1
            = .noContent
        ∧ (inbox env amb st sessions sid origin (.parsed (.obj fs))).2.1
            = sessions)
    ∧ (∀ env amb st sessions sid origin fs,
      check_origin env origin = true →
      (pyGet sessions sid).isSome = true →
      (handle_method amb st ((pyGet fs "method").getD .null)
          ((pyGet fs "params").getD (.obj []))
          ((pyGet fs "id").getD .null)).1 = none →
        (inbox env amb st sessions sid origin (.parsed (.obj fs))).1
            = .noContent
        ∧ (inbox env amb st sessions sid origin (.parsed (.obj fs))).2.1
            = sessions) := by
  constructor
  · intro env amb st sessions sid origin fs h1 h2 h3
    have h2' : (pyGet sessions sid).isNone = false := by
      rcases hv : pyGet sessions sid with _ | q
      · rw [hv] at h2; exact absurd h2 (by simp)
      · rfl
    simp only [inbox, h1, h2', h3, Bool.not_true, Bool.false_eq_true,
      if_false, Option.isNone_none, Option.getD_none]
    cases (handle_method amb st ((pyGet fs "method").getD .null)
        ((pyGet fs "params").getD (.obj [])) .null).1 <;>
      exact ⟨rfl, rfl⟩
  · intro env amb st sessions sid origin fs h1 h2 h3
    have h2' : (pyGet sessions sid).isNone = false := by
      rcases hv : pyGet sessions sid with _ | q
      · rw [hv] at h2; exact absurd h2 (by simp)
      · rfl
    simp [inbox, h1, h2', h3]

/-- C4 witness: a `ping` notification (id absent) answers 204 and leaves
the session table unchanged, and so does an id-carrying
`notifications/initialized` body, whose dispatch returns no response. -/
theorem c4_notification_discards_response_witness :
    ((inbox envLocal ⟨"T", "A", "B"⟩ bankInit [("S", [])] "S" none
        (.parsed (.obj [("method", .str "ping")]))).1 = .noContent
     ∧ (inbox envLocal ⟨"T", "A", "B"⟩ bankInit [("S", [])] "S" none
        (.parsed (.obj [("method", .str "ping")]))).2.1 = [("S", [])])
    ∧ ((inbox envLocal ⟨"T", "A", "B"⟩ bankInit [("S", [])] "S" none
        (.parsed (.obj [("id", .num 1),
          ("method", .str "notifications/initialized")]))).1 = .noContent
     ∧ (inbox envLocal ⟨"T", "A", "B"⟩ bankInit [("S", [])] "S" none
        (.parsed (.obj [("id", .num 1),
          ("method", .str "notifications/initialized")]))).2.1
        = [("S", [])]) :=
  ⟨c4_notification_discards_response.1 envLocal ⟨"T", "A", "B"⟩ bankInit
      [("S", [])] "S" none [("method", .str "ping")] rfl rfl rfl,
   c4_notification_discards_response.2 envLocal ⟨"T", "A", "B"⟩ bankInit
      [("S", [])] "S" none
      [("id", .num 1), ("method", .str "notifications/initialized")]
      rfl rfl rfl⟩

/-- C5: a `tools/call` whose `params.name` is a string that is not a key
of the tool registry is answered with a SUCCESSFUL JSON-RPC response (a
`result` envelope, no `error` member) echoing the request id; the wrapped
result has `isError` true and its text content is exactly
"Unknown tool: " followed by the supplied name. -/
theorem c5_unknown_tool_is_tool_level_error (name : String) (amb : Ambient)
    (st : BankState) (id_ args : JValue)
    (h : (pyGet TOOL_REGISTRY name).isNone = true) :
    handle_method amb st (.str "tools/call")
        (.obj [("name", .str name), ("arguments", args)]) id_
      = (some (jrpc_result id_
          (mcp_tool_error ("Unknown tool: " ++ name) none)), st)
    ∧ jField (mcp_tool_error ("Unknown tool: " ++ name) none) "isError"
        = some (.bool true)
    ∧ jField (jrpc_result id_ (mcp_tool_error ("Unknown tool: " ++ name) none))
        "error" = none
    ∧ jField (jrpc_result id_ (mcp_tool_error ("Unknown tool: " ++ name) none))
        "id" = some id_
    ∧ jField (jrpc_result id_ (mcp_tool_error ("Unknown tool: " ++ name) none))
        "result" = some (mcp_tool_error ("Unknown tool: " ++ name) none)
    ∧ firstContentText (mcp_tool_error ("Unknown tool: " ++ name) none)
        = some (.str ("Unknown tool: " ++ name)) := by
  have hnone : pyGet TOOL_REGISTRY name = none :=
    Option.isNone_iff_eq_none.mp h
  have htc : tools_call_result amb st (.str name) args
      = (mcp_tool_error ("Unknown tool: " ++ name) none, st) := by
    simp [tools_call_result, hnone, pyFormat]
  have hdisp : handle_method amb st (.str "tools/call")
      (.obj [("name", .str name), ("arguments", args)]) id_
      = (some (jrpc_result id_ (tools_call_result amb st (.str name) args).1),
         (tools_call_result amb st (.str name) args).2) := rfl
  refine ⟨?_, rfl, rfl, rfl, rfl, rfl⟩
  rw [hdisp, htc]

/-- C5 witness: the "nope" scenario of the specification. -/
theorem c5_unknown_tool_is_tool_level_error_witness :
    handle_method ⟨"T", "A", "B"⟩ bankInit (.str "tools/call")
        (.obj [("name", .str "nope"), ("arguments", .obj [])]) (.num 2)
      = (some (jrpc_result (.num 2)
          (mcp_tool_error ("Unknown tool: " ++ "nope") none)), bankInit)
    ∧ firstContentText (mcp_tool_error ("Unknown tool: " ++ "nope") none)
        = some (.str ("Unknown tool: " ++ "nope")) :=
  ⟨(c5_unknown_tool_is_tool_level_error "nope" ⟨"T", "A", "B"⟩ bankInit
      (.num 2) (.obj []) rfl).1,
   (c5_unknown_tool_is_tool_level_error "nope" ⟨"T", "A", "B"⟩ bankInit
      (.num 2) (.obj []) rfl).2.2.2.2.2⟩

/-- C6: the invocation boundary.  (a) For every registered tool, when the
tool body raises, `tools_call_result` catches the exception and wraps it as
a tool-level error result ("Tool execution failed" with the exception
description as the `error` detail) inside a successful JSON-RPC response —
never a transport failure.  (b) An exception raised inside the dispatcher
outside tool execution is caught by `handle_method` and answered as a
JSON-RPC error with code -32603 "Internal error"; together with the
totality of `handle_method`, dispatch always returns a value and never
raises. -/
theorem c6_exceptions_contained :
    (∀ (s : String) (impl : ToolFn) (schema : JValue) (amb : Ambient)
        (st : BankState) (args : JValue) (e : PyErr),
      pyGet TOOL_REGISTRY s = some (impl, schema) →
      impl amb (if jTruthy args then args else .obj []) st = .error e →
        tools_call_result amb st (.str s) args
          = (mcp_tool_error "Tool execution failed"
              (some (.obj [("error", .str e.toDesc)])), st)
        ∧ ∀ id_ : JValue, handle_method amb st (.str "tools/call")
              (.obj [("name", .str s), ("arguments", args)]) id_
            = (some (jrpc_result id_ (mcp_tool_error "Tool execution failed"
                (some (.obj [("error", .str e.toDesc)])))), st))
    ∧ (∀ (amb : Ambient) (st : BankState) (method params id_ : JValue)
        (d : String),
      handle_method_core amb st method params id_ = .error (.exc d) →
        handle_method amb st method params id_
          = (some (jrpc_error id_ (-32603) "Internal error" none), st)) := by
  constructor
  · intro s impl schema amb st args e h1 h2
    have htc : tools_call_result amb st (.str s) args
        = (mcp_tool_error "Tool execution failed"
            (some (.obj [("error", .str e.toDesc)])), st) := by
      simp [tools_call_result, h1, h2]
    refine ⟨htc, fun id_ => ?_⟩
    have hdisp : handle_method amb st (.str "tools/call")
        (.obj [("name", .str s), ("arguments", args)]) id_
        = (some (jrpc_result id_ (tools_call_result amb st (.str s) args).1),
           (tools_call_result amb st (.str s) args).2) := rfl
    rw [hdisp, htc]
  · intro amb st method params id_ d h
    simp [handle_method, h]

/-- C6 witness: the tool body of `search_customer` raises an
AttributeError on the non-dict arguments value 5, which is converted to a
tool-level error; a non-dict params value on `tools/call` raises inside the
dispatcher and is answered -32603. -/
theorem c6_exceptions_contained_witness :
    tools_call_result ⟨"T", "A", "B"⟩ bankInit (.str "search_customer")
        (.num 5)
      = (mcp_tool_error "Tool execution failed"
          (some (.obj [("error",
            .str "AttributeError: int object has no attribute get")])),
         bankInit)
    ∧ handle_method ⟨"T", "A", "B"⟩ bankInit (.str "tools/call")
        (.str "oops") (.num 7)
      = (some (jrpc_error (.num 7) (-32603) "Internal error" none),
         bankInit) :=
  ⟨(c6_exceptions_contained.1 "search_customer" _ _ ⟨"T", "A", "B"⟩
      bankInit (.num 5)
      (.exc "AttributeError: int object has no attribute get") rfl rfl).1,
   c6_exceptions_contained.2 ⟨"T", "A", "B"⟩
      bankInit (.str "tools/call") (.str "oops") (.num 7)
      "AttributeError: str object has no attribute get" rfl⟩

lemma setAccountStatus_absent (action ns rp now ref a : String)
    (st : BankState) (h : pyGet st.accountStatus a = none) :
    setAccountStatus action ns rp now ref (.str a) st
      = .ok (.obj [("success", .bool false),
          ("error", .str "Account not found"), ("account_id", .str a)],
         st) := by
  simp [setAccountStatus, h]

lemma setAccountStatus_present (action ns rp now ref a : String)
    (st : BankState) (s0 : String) (h : pyGet st.accountStatus a = some s0) :
    setAccountStatus action ns rp now ref (.str a) st
      = .ok (.obj [("success", .bool true), ("account_id", .str a),
          ("action", .str action), ("new_status", .str ns),
          ("timestamp", .str now),
          ("reference_id", .str (rp ++ "-" ++ ref))],
        { st with
          accountStatus := pyInsert st.accountStatus a ns,
          products := st.products.map
            (fun cp => (cp.1, setFirstStatus a ns cp.2)) }) := by
  simp [setAccountStatus, h]

lemma products_frame_after (a ns : String)
    (ps : List (String × List Product)) :
    List.Forall₂ (fun cp cq => cq.1 = cp.1
        ∧ List.Forall₂ (productFrame a ns) cp.2 cq.2
        ∧ ((cp.2.map Product.product_id).Nodup →
            List.Forall₂ (fun p q => p.product_id = a →
              q = { p with status := ns }) cp.2 cq.2))
      ps (ps.map (fun cp => (cp.1, setFirstStatus a ns cp.2))) := by
  induction ps with
  | nil => exact List.Forall₂.nil
  | cons cp rest ih =>
    exact List.Forall₂.cons
      ⟨rfl, setFirstStatus_frame a ns cp.2,
       fun hnd => setFirstStatus_hit a ns cp.2 hnd⟩ ih

/-- C9: freeze/unfreeze footprint.  For an account id absent from
`ACCOUNT_STATUS` both tools return the success-false "Account not found"
result and leave the whole state (statuses, products, customers)
unchanged.  For a present id the result is ok and exactly the footprint
changes: customers untouched; the status entry of that id becomes the new
status while the lookup of every other key is unchanged; and in every
customer product list each record is either untouched or is a record with
the matched product id whose status field alone was replaced — the matched
record (unique ids assumed per list, as in the data) does get the new
status. -/
theorem c9_freeze_unfreeze_footprint :
    (∀ (now ref a : String) (st : BankState),
      pyGet st.accountStatus a = none →
        freeze_account now ref (.str a) st
          = .ok (.obj [("success", .bool false),
              ("error", .str "Account not found"),
              ("account_id", .str a)], st)
        ∧ unfreeze_account now ref (.str a) st
          = .ok (.obj [("success", .bool false),
              ("error", .str "Account not found"),
              ("account_id", .str a)], st))
    ∧ (∀ (now ref a : String) (st : BankState) (s0 : String),
      pyGet st.accountStatus a = some s0 →
        ∃ r st2, freeze_account now ref (.str a) st = .ok (r, st2)
          ∧ st2.customers = st.customers
          ∧ pyGet st2.accountStatus a = some "frozen"
          ∧ (∀ k, k ≠ a →
              pyGet st2.accountStatus k = pyGet st.accountStatus k)
          ∧ List.Forall₂ (fun cp cq => cq.1 = cp.1
              ∧ List.Forall₂ (productFrame a "frozen") cp.2 cq.2
              ∧ ((cp.2.map Product.product_id).Nodup →
                  List.Forall₂ (fun p q => p.product_id = a →
                    q = { p with status := "frozen" }) cp.2 cq.2))
              st.products st2.products)
    ∧ (∀ (now ref a : String) (st : BankState) (s0 : String),
      pyGet st.accountStatus a = some s0 →
        ∃ r st2, unfreeze_account now ref (.str a) st = .ok (r, st2)
          ∧ st2.customers = st.customers
          ∧ pyGet st2.accountStatus a = some "active"
          ∧ (∀ k, k ≠ a →
              pyGet st2.accountStatus k = pyGet st.accountStatus k)
          ∧ List.Forall₂ (fun cp cq => cq.1 = cp.1
              ∧ List.Forall₂ (productFrame a "active") cp.2 cq.2
              ∧ ((cp.2.map Product.product_id).Nodup →
                  List.Forall₂ (fun p q => p.product_id = a →
                    q = { p with status := "active" }) cp.2 cq.2))
              st.products st2.products) := by
  refine ⟨?_, ?_, ?_⟩
  · intro now ref a st h
    exact ⟨setAccountStatus_absent _ _ _ now ref a st h,
      setAccountStatus_absent _ _ _ now ref a st h⟩
  · intro now ref a st s0 h
    exact ⟨_, _, setAccountStatus_present _ _ _ now ref a st s0 h, rfl,
      pyGet_pyInsert_self _ _ _,
      fun k hk => pyGet_pyInsert_ne _ _ _ _ hk,
      products_frame_after a "frozen" st.products⟩
  · intro now ref a st s0 h
    exact ⟨_, _, setAccountStatus_present _ _ _ now ref a st s0 h, rfl,
      pyGet_pyInsert_self _ _ _,
      fun k hk => pyGet_pyInsert_ne _ _ _ _ hk,
      products_frame_after a "active" st.products⟩

/-- C9 witness: the not-found case at "NOSUCH" and the mutation footprint
of freezing "CHK001" and unfreezing "CHK003" on the initial data. -/
theorem c9_freeze_unfreeze_footprint_witness :
    (freeze_account "T" "A" (.str "NOSUCH") bankInit
        = .ok (.obj [("success", .bool false),
            ("error", .str "Account not found"),
            ("account_id", .str "NOSUCH")], bankInit)
     ∧ unfreeze_account "T" "A" (.str "NOSUCH") bankInit
        = .ok (.obj [("success", .bool false),
            ("error", .str "Account not found"),
            ("account_id", .str "NOSUCH")], bankInit))
    ∧ (∃ r st2, freeze_account "T" "A" (.str "CHK001") bankInit
          = .ok (r, st2)
        ∧ st2.customers = bankInit.customers
        ∧ pyGet st2.accountStatus "CHK001" = some "frozen"
        ∧ (∀ k, k ≠ "CHK001" →
            pyGet st2.accountStatus k = pyGet bankInit.accountStatus k)
        ∧ List.Forall₂ (fun cp cq => cq.1 = cp.1
            ∧ List.Forall₂ (productFrame "CHK001" "frozen") cp.2 cq.2
            ∧ ((cp.2.map Product.product_id).Nodup →
                List.Forall₂ (fun p q => p.product_id = "CHK001" →
                  q = { p with status := "frozen" }) cp.2 cq.2))
            bankInit.products st2.products)
    ∧ (∃ r st2, unfreeze_account "T" "A" (.str "CHK003") bankInit
          = .ok (r, st2)
        ∧ st2.customers = bankInit.customers
        ∧ pyGet st2.accountStatus "CHK003" = some "active"
        ∧ (∀ k, k ≠ "CHK003" →
            pyGet st2.accountStatus k = pyGet bankInit.accountStatus k)
        ∧ List.Forall₂ (fun cp cq => cq.1 = cp.1
            ∧ List.Forall₂ (productFrame "CHK003" "active") cp.2 cq.2
            ∧ ((cp.2.map Product.product_id).Nodup →
                List.Forall₂ (fun p q => p.product_id = "CHK003" →
                  q = { p with status := "active" }) cp.2 cq.2))
            bankInit.products st2.products) :=
  ⟨c9_freeze_unfreeze_footprint.1 "T" "A" "NOSUCH" bankInit rfl,
   c9_freeze_unfreeze_footprint.2.1 "T" "A" "CHK001" bankInit "active" rfl,
   c9_freeze_unfreeze_footprint.2.2 "T" "A" "CHK003" bankInit "frozen" rfl⟩

lemma except_bind_ok {α β : Type} (a : α) (f : α → Except PyErr β) :
    ((Except.ok a : Except PyErr α) >>= f) = f a := rfl

lemma liftPure_ok (biz : Except PyErr JValue) (st : BankState) (r : JValue)
    (h : biz = .ok r) :
    (biz >>= fun r => (Except.ok (r, st) : Except PyErr (JValue × BankState)))
      = .ok (r, st) := by
  rw [h]
  rfl

lemma tools_call_ok (amb : Ambient) (st : BankState) (s : String)
    (impl : ToolFn) (schema : JValue) (args : JValue) (r : JValue)
    (st2 : BankState)
    (hl : pyGet TOOL_REGISTRY s = some (impl, schema))
    (hargs : impl amb (if jTruthy args then args else .obj []) st
      = .ok (r, st2)) :
    tools_call_result amb st (.str s) args = (mcp_tool_success r, st2) := by
  simp [tools_call_result, hl, hargs]

/-- C10: the `required` lists of the input schemas are never enforced.
Every registered tool declares a nonempty `required` list, yet a
`tools/call` with empty arguments still executes the tool (each missing
argument defaulting to the empty string via `args.get(key, "")`), wraps its
ordinary domain result as a success payload with `isError` false for every
domain state, and on the initial data that domain result is the ordinary
`success: false` not-found outcome — never a missing-argument error of any
kind. -/
theorem c10_required_fields_not_enforced :
    (∀ (s : String) (impl : ToolFn) (schema : JValue),
      pyGet TOOL_REGISTRY s = some (impl, schema) →
        (∃ req, jField schema "required" = some (.arr req) ∧ req ≠ [])
        ∧ ∀ (amb : Ambient) (st : BankState), ∃ r st2,
            impl amb (.obj []) st = .ok (r, st2)
            ∧ tools_call_result amb st (.str s) (.obj [])
                = (mcp_tool_success r, st2)
            ∧ jField (mcp_tool_success r) "isError" = some (.bool false))
    ∧ (∀ (s : String) (impl : ToolFn) (schema : JValue),
      pyGet TOOL_REGISTRY s = some (impl, schema) →
        ∀ amb : Ambient, ∃ r,
          impl amb (.obj []) bankInit = .ok (r, bankInit)
          ∧ jField r "success" = some (.bool false)) := by
  constructor
  · intro s impl schema h
    have hmem : (s, (impl, schema)) ∈ TOOL_REGISTRY := pyGet_mem _ _ _ h
    simp only [TOOL_REGISTRY, List.mem_cons, List.not_mem_nil, or_false,
      Prod.mk.injEq] at hmem
    rcases hmem with h9 | h9 | h9 | h9 | h9 | h9 | h9 | h9 | h9 <;>
      obtain ⟨rfl, rfl, rfl⟩ := h9
    · -- search_customer
      exact ⟨⟨_, rfl, List.cons_ne_nil _ _⟩, fun amb st =>
        ⟨_, _, rfl, tools_call_ok _ _ _ _ _ _ _ _ rfl rfl, rfl⟩⟩
    · -- get_customer_profile
      refine ⟨⟨_, rfl, List.cons_ne_nil _ _⟩, fun amb st => ?_⟩
      rcases hc : pyGet st.customers "" with _ | c
      · have hgp : get_customer_profile amb.now (.str "") st
            = .ok (.obj [("success", .bool false),
                ("error", .str "Customer not found"),
                ("customer_id", .str "")]) := by
          simp [get_customer_profile, pyGetKey, except_bind_ok, hc]
        exact ⟨_, _, liftPure_ok _ st _ hgp,
          tools_call_ok _ _ _ _ _ _ _ _ rfl (liftPure_ok _ st _ hgp), rfl⟩
      · have hgp : get_customer_profile amb.now (.str "") st
            = .ok (.obj (("success", .bool true) :: customerFields c
                ++ [("timestamp", .str amb.now)])) := by
          simp [get_customer_profile, pyGetKey, except_bind_ok, hc]
        exact ⟨_, _, liftPure_ok _ st _ hgp,
          tools_call_ok _ _ _ _ _ _ _ _ rfl (liftPure_ok _ st _ hgp), rfl⟩
    · -- get_active_products
      refine ⟨⟨_, rfl, List.cons_ne_nil _ _⟩, fun amb st => ?_⟩
      rcases hc : pyGet st.products "" with _ | ps
      · have hgp : get_active_products amb.now (.str "") st
            = .ok (.obj [("success", .bool false),
                ("error", .str "No products found for customer"),
                ("customer_id", .str "")]) := by
          simp [get_active_products, pyGetKey, except_bind_ok, hc]
        exact ⟨_, _, liftPure_ok _ st _ hgp,
          tools_call_ok _ _ _ _ _ _ _ _ rfl (liftPure_ok _ st _ hgp), rfl⟩
      · rcases ps with _ | ⟨p, ps2⟩
        · have hgp : get_active_products amb.now (.str "") st
              = .ok (.obj [("success", .bool false),
                  ("error", .str "No products found for customer"),
                  ("customer_id", .str "")]) := by
            simp [get_active_products, pyGetKey, except_bind_ok, hc]
          exact ⟨_, _, liftPure_ok _ st _ hgp,
            tools_call_ok _ _ _ _ _ _ _ _ rfl (liftPure_ok _ st _ hgp), rfl⟩
        · have hgp : get_active_products amb.now (.str "") st
              = .ok (.obj [("success", .bool true),
                  ("customer_id", .str ""),
                  ("products", .arr ((p :: ps2).map Product.toJ)),
                  ("total_products", .num (p :: ps2).length),
                  ("timestamp", .str amb.now)]) := by
            simp [get_active_products, pyGetKey, except_bind_ok, hc]
          exact ⟨_, _, liftPure_ok _ st _ hgp,
            tools_call_ok _ _ _ _ _ _ _ _ rfl (liftPure_ok _ st _ hgp), rfl⟩
    · -- freeze_account
      refine ⟨⟨_, rfl, List.cons_ne_nil _ _⟩, fun amb st => ?_⟩
      rcases hc : pyGet st.accountStatus "" with _ | s0
      · exact ⟨_, _, setAccountStatus_absent _ _ _ _ _ _ st hc,
          tools_call_ok _ _ _ _ _ _ _ _ rfl
            (setAccountStatus_absent _ _ _ _ _ _ st hc), rfl⟩
      · exact ⟨_, _, setAccountStatus_present _ _ _ _ _ _ st s0 hc,
          tools_call_ok _ _ _ _ _ _ _ _ rfl
            (setAccountStatus_present _ _ _ _ _ _ st s0 hc), rfl⟩
    · -- unfreeze_account
      refine ⟨⟨_, rfl, List.cons_ne_nil _ _⟩, fun amb st => ?_⟩
      rcases hc : pyGet st.accountStatus "" with _ | s0
      · exact ⟨_, _, setAccountStatus_absent _ _ _ _ _ _ st hc,
          tools_call_ok _ _ _ _ _ _ _ _ rfl
            (setAccountStatus_absent _ _ _ _ _ _ st hc), rfl⟩
      · exact ⟨_, _, setAccountStatus_present _ _ _ _ _ _ st s0 hc,
          tools_call_ok _ _ _ _ _ _ _ _ rfl
            (setAccountStatus_present _ _ _ _ _ _ st s0 hc), rfl⟩
    · -- reset_password
      refine ⟨⟨_, rfl, List.cons_ne_nil _ _⟩, fun amb st => ?_⟩
      rcases hc : pyGet st.customers "" with _ | c
      · have hgp : reset_password amb.now amb.u1 amb.u2 (.str "") st
            = .ok (.obj [("success", .bool false),
                ("error", .str "Customer not found"),
                ("customer_id", .str "")]) := by
          simp [reset_password, pyGetKey, except_bind_ok, hc]
        exact ⟨_, _, liftPure_ok _ st _ hgp,
          tools_call_ok _ _ _ _ _ _ _ _ rfl (liftPure_ok _ st _ hgp), rfl⟩
      · have hgp : reset_password amb.now amb.u1 amb.u2 (.str "") st
            = .ok (.obj [("success", .bool true), ("customer_id", .str ""),
                ("action", .str "password_reset"),
                ("temporary_password", .str ("TEMP-" ++ amb.u1)),
                ("expires_in_hours", .num 24),
                ("timestamp", .str amb.now),
                ("reference_id", .str ("PWD-" ++ amb.u2))]) := by
          simp [reset_password, pyGetKey, except_bind_ok, hc]
        exact ⟨_, _, liftPure_ok _ st _ hgp,
          tools_call_ok _ _ _ _ _ _ _ _ rfl (liftPure_ok _ st _ hgp), rfl⟩
    · -- update_address
      refine ⟨⟨_, rfl, List.cons_ne_nil _ _⟩, fun amb st => ?_⟩
      rcases hc : pyGet st.customers "" with _ | c
      · have hup : update_address amb.now amb.u1 (.str "") (.str "") st
            = .ok (.obj [("success", .bool false),
                ("error", .str "Customer not found"),
                ("customer_id", .str "")], st) := by
          simp [update_address, hc]
        exact ⟨_, _, hup, tools_call_ok _ _ _ _ _ _ _ _ rfl hup, rfl⟩
      · have hup : update_address amb.now amb.u1 (.str "") (.str "") st
            = .ok (.obj [("success", .bool true), ("customer_id", .str ""),
                ("action", .str "address_update"),
                ("old_address", c.address), ("new_address", .str ""),
                ("timestamp", .str amb.now),
                ("reference_id", .str ("ADR-" ++ amb.u1))],
              { st with customers :=
                  pyInsert st.customers "" { c with address := .str "" } })
            := by
          simp [update_address, hc]
        exact ⟨_, _, hup, tools_call_ok _ _ _ _ _ _ _ _ rfl hup, rfl⟩
    · -- get_banking_details
      exact ⟨⟨_, rfl, List.cons_ne_nil _ _⟩, fun amb st =>
        ⟨_, _, rfl, tools_call_ok _ _ _ _ _ _ _ _ rfl rfl, rfl⟩⟩
    · -- search_by_swift_bic
      exact ⟨⟨_, rfl, List.cons_ne_nil _ _⟩, fun amb st =>
        ⟨_, _, rfl, tools_call_ok _ _ _ _ _ _ _ _ rfl rfl, rfl⟩⟩
  · intro s impl schema h
    have hmem : (s, (impl, schema)) ∈ TOOL_REGISTRY := pyGet_mem _ _ _ h
    simp only [TOOL_REGISTRY, List.mem_cons, List.not_mem_nil, or_false,
      Prod.mk.injEq] at hmem
    rcases hmem with h9 | h9 | h9 | h9 | h9 | h9 | h9 | h9 | h9 <;>
      obtain ⟨rfl, rfl, rfl⟩ := h9 <;>
      exact fun amb => ⟨_, rfl, rfl⟩

/-- C10 witness: the `search_customer` entry declares a required argument,
yet the empty-arguments call executes with the identifier defaulted to ""
and yields its ordinary not-found result with `isError` false. -/
theorem c10_required_fields_not_enforced_witness :
    ∃ impl schema,
      pyGet TOOL_REGISTRY "search_customer" = some (impl, schema)
      ∧ (∃ req, jField schema "required" = some (.arr req) ∧ req ≠ [])
      ∧ (∃ r st2, impl ⟨"T", "A", "B"⟩ (.obj []) bankInit = .ok (r, st2)
          ∧ tools_call_result ⟨"T", "A", "B"⟩ bankInit
              (.str "search_customer") (.obj []) = (mcp_tool_success r, st2)
          ∧ jField (mcp_tool_success r) "isError" = some (.bool false))
      ∧ (∃ r, impl ⟨"T", "A", "B"⟩ (.obj []) bankInit = .ok (r, bankInit)
          ∧ jField r "success" = some (.bool false)) :=
  ⟨_, _, rfl,
   (c10_required_fields_not_enforced.1 "search_customer" _ _ rfl).1,
   (c10_required_fields_not_enforced.1 "search_customer" _ _ rfl).2
     ⟨"T", "A", "B"⟩ bankInit,
   c10_required_fields_not_enforced.2 "search_customer" _ _ rfl
     ⟨"T", "A", "B"⟩⟩

end AccountMcp
